import Mathlib

/-!
# 3ds Max plugin examples: geometry plugin and utility plugin

A shallow embedding of `examples/cpp-sdk/geometry_plugin.cpp` and
`examples/cpp-sdk/utility_plugin.cpp`.

Conventions of the embedding.

* `float` values of the geometry plugin are rationals (`ℚ`), its properties being properties of
  exact arithmetic. The node transforms the utility plugin snaps to the grid are binary32 values
  (`F32`), and each `float` operation on them rounds to nearest, ties to even.
* `int`, `DWORD` and `COLORREF` values are `Int` / `Nat`; no counter of the source gets near
  the 32-bit range on a scene that fits in memory, so no wrap-around is modelled.
* Objects of the host SDK (`Mesh`, `Face`, `INode`, `Interface`, `ViewExp`, `IParamBlock2`) are
  records holding the part of their state the plugins read or write; every host call used by
  the plugins is a function on those records, written after the SDK headers.
-/

set_option linter.unusedVariables false

namespace MaxPlugins

/-! ## Host SDK: points, faces, meshes -/

/-- SDK `Point3`: three `float` coordinates. -/
structure Point3 where
  x : ℚ
  y : ℚ
  z : ℚ
deriving DecidableEq, Repr

/-- SDK `Point3::operator-`. -/
def Point3.sub (a b : Point3) : Point3 := ⟨a.x - b.x, a.y - b.y, a.z - b.z⟩

/-- SDK `EDGE_A`: visibility bit of the edge from corner 0 to corner 1. -/
def EDGE_A : Nat := 1
/-- SDK `EDGE_B`: visibility bit of the edge from corner 1 to corner 2. -/
def EDGE_B : Nat := 2
/-- SDK `EDGE_C`: visibility bit of the edge from corner 2 to corner 0. -/
def EDGE_C : Nat := 4
/-- SDK `EDGE_ALL`. -/
def EDGE_ALL : Nat := EDGE_A ||| EDGE_B ||| EDGE_C

/-- SDK `Face`: three vertex indices, a smoothing group word and a flag word.
The default value is the SDK constructor `Face()`, which clears `smGroup` and `flags`. -/
structure Face where
  v0 : Nat := 0
  v1 : Nat := 0
  v2 : Nat := 0
  smGroup : Nat := 0
  flags : Nat := 0
deriving DecidableEq, Repr

/-- SDK `Face::setVerts(a, b, c)`. -/
def Face.setVerts (f : Face) (a b c : Nat) : Face := { f with v0 := a, v1 := b, v2 := c }

/-- SDK `Face::setSmGroup(i)`. -/
def Face.setSmGroup (f : Face) (i : Nat) : Face := { f with smGroup := i }

/-- SDK `Face::setEdgeVisFlags(va, vb, vc)`:
`flags &= ~EDGE_ALL; flags |= (va ? EDGE_A : 0) | (vb ? EDGE_B : 0) | (vc ? EDGE_C : 0)`
on a 32-bit flag word. -/
def Face.setEdgeVisFlags (f : Face) (va vb vc : Int) : Face :=
  { f with flags := (f.flags &&& (0xFFFFFFFF - EDGE_ALL)) |||
      ((if va ≠ 0 then EDGE_A else 0) ||| (if vb ≠ 0 then EDGE_B else 0) |||
       (if vc ≠ 0 then EDGE_C else 0)) }

/-- SDK `Face::getEdgeVis(edge)` as a truth value: bit `edge` of the flag word. -/
def Face.getEdgeVis (f : Face) (edge : Nat) : Bool := f.flags &&& (1 <<< edge) ≠ 0

/-- SDK `Mesh`, reduced to its vertex and face arrays. -/
structure Mesh where
  verts : List Point3 := []
  faces : List Face := []
deriving DecidableEq, Repr

/-- SDK `Mesh::setNumVerts(ct)` with `keep = FALSE`: a fresh vertex array of `ct` entries. -/
def Mesh.setNumVerts (m : Mesh) (ct : Nat) : Mesh :=
  { m with verts := List.replicate ct ⟨0, 0, 0⟩ }

/-- SDK `Mesh::setNumFaces(ct)` with `keep = FALSE`: a fresh array of `ct` constructed faces. -/
def Mesh.setNumFaces (m : Mesh) (ct : Nat) : Mesh :=
  { m with faces := List.replicate ct {} }

/-- SDK `Mesh::setVert(i, xyz)`. -/
def Mesh.setVert (m : Mesh) (i : Nat) (xyz : Point3) : Mesh :=
  { m with verts := m.verts.set i xyz }

/-- An update of `mesh.faces[i]` in place, as in `mesh.faces[i].setVerts(...)`. -/
def Mesh.onFace (m : Mesh) (i : Nat) (f : Face → Face) : Mesh :=
  { m with faces := m.faces.set i (f (m.faces.getD i {})) }

/-- SDK `Mesh::getVert(i)`. -/
def Mesh.getVert (m : Mesh) (i : Nat) : Point3 := m.verts.getD i ⟨0, 0, 0⟩

/-! ## geometry_plugin.cpp: `PyramidObject::BuildPyramidMesh` -/

/-- Source `PyramidObject::BuildPyramidMesh(baseSize, height, segments)`, acting on the member `mesh`.
The closing `InvalidateGeomCache()` and `buildNormals()` touch neither array. -/
def BuildPyramidMesh (mesh : Mesh) (baseSize height : ℚ) (segments : Int) : Mesh :=
  let SMOOTH_GROUP_SIDES : Nat := 1
  let SMOOTH_GROUP_BOTTOM : Nat := 2
  let EDGE_VISIBLE : Int := 1
  let EDGE_INVISIBLE : Int := 0
  let numVerts : Nat := 5
  let numFaces : Nat := 6
  let mesh := mesh.setNumVerts numVerts
  let mesh := mesh.setNumFaces numFaces
  let halfSize : ℚ := baseSize / 2
  let mesh := mesh.setVert 0 ⟨-halfSize, -halfSize, 0⟩
  let mesh := mesh.setVert 1 ⟨halfSize, -halfSize, 0⟩
  let mesh := mesh.setVert 2 ⟨halfSize, halfSize, 0⟩
  let mesh := mesh.setVert 3 ⟨-halfSize, halfSize, 0⟩
  let mesh := mesh.setVert 4 ⟨0, 0, height⟩
  let mesh := mesh.onFace 0 (fun f => f.setVerts 0 1 4)
  let mesh := mesh.onFace 0 (fun f => f.setSmGroup SMOOTH_GROUP_SIDES)
  let mesh := mesh.onFace 0 (fun f => f.setEdgeVisFlags EDGE_VISIBLE EDGE_VISIBLE EDGE_INVISIBLE)
  let mesh := mesh.onFace 1 (fun f => f.setVerts 1 2 4)
  let mesh := mesh.onFace 1 (fun f => f.setSmGroup SMOOTH_GROUP_SIDES)
  let mesh := mesh.onFace 1 (fun f => f.setEdgeVisFlags EDGE_VISIBLE EDGE_VISIBLE EDGE_INVISIBLE)
  let mesh := mesh.onFace 2 (fun f => f.setVerts 2 3 4)
  let mesh := mesh.onFace 2 (fun f => f.setSmGroup SMOOTH_GROUP_SIDES)
  let mesh := mesh.onFace 2 (fun f => f.setEdgeVisFlags EDGE_VISIBLE EDGE_VISIBLE EDGE_INVISIBLE)
  let mesh := mesh.onFace 3 (fun f => f.setVerts 3 0 4)
  let mesh := mesh.onFace 3 (fun f => f.setSmGroup SMOOTH_GROUP_SIDES)
  let mesh := mesh.onFace 3 (fun f => f.setEdgeVisFlags EDGE_VISIBLE EDGE_VISIBLE EDGE_INVISIBLE)
  let mesh := mesh.onFace 4 (fun f => f.setVerts 0 3 1)
  let mesh := mesh.onFace 4 (fun f => f.setSmGroup SMOOTH_GROUP_BOTTOM)
  let mesh := mesh.onFace 4 (fun f => f.setEdgeVisFlags EDGE_VISIBLE EDGE_INVISIBLE EDGE_VISIBLE)
  let mesh := mesh.onFace 5 (fun f => f.setVerts 1 3 2)
  let mesh := mesh.onFace 5 (fun f => f.setSmGroup SMOOTH_GROUP_BOTTOM)
  let mesh := mesh.onFace 5 (fun f => f.setEdgeVisFlags EDGE_INVISIBLE EDGE_VISIBLE EDGE_VISIBLE)
  mesh

/-- Parameter IDs of the pyramid parameter block (`enum { pb_base_size, pb_height, pb_segments }`). -/
inductive ParamID where
  | pb_base_size
  | pb_height
  | pb_segments
deriving DecidableEq, Repr

/-- The three values `PyramidObject::BuildMesh` reads from `pblock2` at time `t`. -/
structure PyramidParams where
  baseSize : ℚ
  height : ℚ
  segments : Int

/-- Source `PyramidObject::BuildMesh(t)`: reads the three parameters at time `t` from the parameter
block (given as a function of time) and calls `BuildPyramidMesh`. -/
def BuildMesh (pblock2 : Int → PyramidParams) (mesh : Mesh) (t : Int) : Mesh :=
  let baseSize := (pblock2 t).baseSize
  let height := (pblock2 t).height
  let segments := (pblock2 t).segments
  BuildPyramidMesh mesh baseSize height segments

/-! ### Derived notions used to state the mesh properties -/

/-- The vertex triple of a face. -/
def Face.verts (f : Face) : Nat × Nat × Nat := (f.v0, f.v1, f.v2)

/-- The three directed edges of a face, in the order of `setEdgeVisFlags(ab, bc, ca)`. -/
def Face.dirEdges (f : Face) : List (Nat × Nat) := [(f.v0, f.v1), (f.v1, f.v2), (f.v2, f.v0)]

/-- All directed edges of a mesh, face by face. -/
def Mesh.dirEdges (m : Mesh) : List (Nat × Nat) := m.faces.flatMap Face.dirEdges

/-- An undirected edge as an ordered pair (smaller index first). -/
def undirected (e : Nat × Nat) : Nat × Nat := (min e.1 e.2, max e.1 e.2)

/-- The undirected edges of a mesh, each listed once. -/
def Mesh.edges (m : Mesh) : List (Nat × Nat) := (m.dirEdges.map undirected).dedup

/-- Determinant of the matrix with rows `a`, `b`, `c`. -/
def det3 (a b c : Point3) : ℚ :=
  a.x * (b.y * c.z - b.z * c.y) - a.y * (b.x * c.z - b.z * c.x) + a.z * (b.x * c.y - b.y * c.x)

/-- Signed volume enclosed by a mesh: the sum over its faces of `det[v_a, v_b, v_c] / 6`. -/
def Mesh.signedVolume (m : Mesh) : ℚ :=
  (m.faces.map (fun f => det3 (m.getVert f.v0) (m.getVert f.v1) (m.getVert f.v2) / 6)).sum

/-- Visibility flags of the directed edges of a face: `(a, b, visible)` per edge. -/
def Face.edgeVis (f : Face) : List (Nat × Nat × Bool) :=
  [(f.v0, f.v1, f.getEdgeVis 0), (f.v1, f.v2, f.getEdgeVis 1), (f.v2, f.v0, f.getEdgeVis 2)]

/-- Visibility of the undirected edge `{a, b}` in face `f`, when `f` contains that edge. -/
def Face.visOf (f : Face) (a b : Nat) : Option Bool :=
  (f.edgeVis.find? (fun e => (e.1 = a ∧ e.2.1 = b) ∨ (e.1 = b ∧ e.2.1 = a))).map (fun e => e.2.2)

/-- The visibility flags the faces containing edge `{a, b}` give it, in face order. -/
def Mesh.edgeVisIn (m : Mesh) (a b : Nat) : List Bool :=
  m.faces.filterMap (fun f => f.visOf a b)

/-! ## geometry_plugin.cpp: `PyramidCreateCallBack::proc` -/

/-- SDK `IPoint2`: integer screen coordinates. -/
structure IPoint2 where
  x : Int
  y : Int
deriving DecidableEq, Repr

/-- SDK `Matrix3`: a 4x3 matrix, three basis rows and the translation row. -/
structure Matrix3 where
  row0 : Point3
  row1 : Point3
  row2 : Point3
  row3 : Point3
deriving DecidableEq, Repr

/-- SDK `Matrix3::GetTrans()`. -/
def Matrix3.GetTrans (tm : Matrix3) : Point3 := tm.row3

/-- SDK `Matrix3::SetTrans(p)`. -/
def Matrix3.SetTrans (tm : Matrix3) (p : Point3) : Matrix3 := { tm with row3 := p }

/-- SDK `ViewExp`, as far as `proc` uses it: `IsAlive()` and
`SnapPoint(m, m, nullptr, SNAP_IN_3D)` as a function of the screen point. -/
structure ViewExp where
  IsAlive : Bool
  SnapPoint : IPoint2 → Point3

/-- SDK `IParamBlock2`, as far as `proc` uses it: the `SetValue(id, t, value)` calls it has
received, oldest first. -/
structure IParamBlock2 where
  setCalls : List (ParamID × Int × ℚ) := []

/-- SDK `IParamBlock2::SetValue(id, t, v)`. -/
def IParamBlock2.SetValue (pb : IParamBlock2) (id : ParamID) (t : Int) (v : ℚ) : IParamBlock2 :=
  { pb with setCalls := pb.setCalls ++ [(id, t, v)] }

/-- SDK mouse messages (`mouseman.h`). -/
def MOUSE_ABORT : Int := 0
/-- SDK mouse message: a point was picked. -/
def MOUSE_POINT : Int := 1
/-- SDK mouse message: the mouse moved. -/
def MOUSE_MOVE : Int := 2

/-- SDK creation callback results (`object.h`). -/
def CREATE_CONTINUE : Int := 1
/-- SDK creation callback result: creation finished. -/
def CREATE_STOP : Int := 0
/-- SDK creation callback result: creation cancelled. -/
def CREATE_ABORT : Int := -1

/-- The members of `PyramidCreateCallBack`; `pblock2` stands for `obj->pblock2`. -/
structure PyramidCreateCallBack where
  pblock2 : IParamBlock2
  p0 : Point3
  p1 : Point3
  sp0 : IPoint2

/-- Source `PyramidCreateCallBack::proc(vpt, msg, point, flags, m, mat)`.
`Length` is the SDK's `Length(Point3)`; the result is the return code, the callback's members
after the call and the matrix `mat` after the call. -/
def PyramidCreateCallBack.proc (Length : Point3 → ℚ) (self : PyramidCreateCallBack)
    (vpt : Option ViewExp) (msg point flags : Int) (m : IPoint2) (mat : Matrix3) :
    Int × PyramidCreateCallBack × Matrix3 :=
  match vpt with
  | none => (CREATE_ABORT, self, mat)
  | some vpt =>
    if !vpt.IsAlive then (CREATE_ABORT, self, mat)
    else if msg = MOUSE_POINT then
      if point = 0 then
        let self := { self with sp0 := m }
        let self := { self with p0 := vpt.SnapPoint m }
        let mat := mat.SetTrans self.p0
        (CREATE_CONTINUE, self, mat)
      else if point = 1 then
        let self := { self with p1 := vpt.SnapPoint m }
        let dist := Length (self.p1.sub self.p0)
        let self := { self with pblock2 := self.pblock2.SetValue .pb_base_size 0 dist }
        let self := { self with pblock2 := self.pblock2.SetValue .pb_height 0 (dist * 2) }
        (CREATE_CONTINUE, self, mat)
      else if point = 2 then (CREATE_STOP, self, mat)
      else (CREATE_CONTINUE, self, mat)
    else if msg = MOUSE_MOVE then
      if point = 1 then
        let self := { self with p1 := vpt.SnapPoint m }
        let dist := Length (self.p1.sub self.p0)
        let self := { self with pblock2 := self.pblock2.SetValue .pb_base_size 0 dist }
        let self := { self with pblock2 := self.pblock2.SetValue .pb_height 0 (dist * 2) }
        (CREATE_CONTINUE, self, mat)
      else (CREATE_CONTINUE, self, mat)
    else if msg = MOUSE_ABORT then (CREATE_ABORT, self, mat)
    else (CREATE_CONTINUE, self, mat)

/-- The viewport test of `proc`: `vpt && vpt->IsAlive()`. -/
def validViewport (vpt : Option ViewExp) : Bool :=
  match vpt with
  | none => false
  | some v => v.IsAlive

/-- The condition under which `proc` is expected to write the parameters: a valid viewport,
point index 1 and message `MOUSE_POINT` or `MOUSE_MOVE`. -/
def writesParams (vpt : Option ViewExp) (msg point : Int) : Prop :=
  validViewport vpt = true ∧ point = 1 ∧ (msg = MOUSE_POINT ∨ msg = MOUSE_MOVE)

/-! ## Class descriptors and the exported factory functions -/

/-- SDK `Class_ID`: two 32-bit parts. -/
structure Class_ID where
  a : Nat
  b : Nat
deriving DecidableEq, Repr

/-- SDK super class IDs (`plugapi.h`). -/
def GEOMOBJECT_CLASS_ID : Nat := 0x10
/-- SDK super class ID of utility plugins. -/
def UTILITY_CLASS_ID : Nat := 0x1020

/-- Source `#define PYRAMID_CLASS_ID Class_ID(0x87654321, 0xFEDCBA98)`. -/
def PYRAMID_CLASS_ID : Class_ID := ⟨0x87654321, 0xFEDCBA98⟩
/-- Source `#define UTILITY_PLUGIN_CLASS_ID Class_ID(0x12345678, 0xABCDEF00)`. -/
def UTILITY_PLUGIN_CLASS_ID : Class_ID := ⟨0x12345678, 0xABCDEF00⟩

/-- What a `ClassDesc2` subclass of the two files answers to the host (`Create` and
`HInstance` left out). -/
structure ClassDesc where
  IsPublic : Int
  ClassName : String
  SuperClassID : Nat
  ClassID : Class_ID
  Category : String
  InternalName : String
deriving DecidableEq, Repr

/-- Source `static PyramidClassDesc pyramidClassDesc;` (geometry_plugin.cpp). -/
def pyramidClassDesc : ClassDesc where
  IsPublic := 1
  ClassName := "Pyramid"
  SuperClassID := GEOMOBJECT_CLASS_ID
  ClassID := PYRAMID_CLASS_ID
  Category := "Custom Geometry"
  InternalName := "Pyramid"

/-- Source `static UtilityPluginDemoClassDesc utilityPluginDesc;` (utility_plugin.cpp). -/
def utilityPluginDesc : ClassDesc where
  IsPublic := 1
  ClassName := "Utility Demo"
  SuperClassID := UTILITY_CLASS_ID
  ClassID := UTILITY_PLUGIN_CLASS_ID
  Category := "Custom Utilities"
  InternalName := "UtilityDemo"

/-- Exported `LibNumberClasses()`. -/
def LibNumberClasses : Int := 1

/-- Exported `LibClassDesc(i)`; `none` is `nullptr`. -/
def LibClassDesc (i : Int) : Option ClassDesc :=
  if i = 0 then some utilityPluginDesc else none

/-! ## binary32 arithmetic -/

/-- A binary32 (`float`) value: a finite one, given by its exact value, or a non-finite one (an
infinity or a NaN). The sign of a zero is not tracked. -/
inductive F32 where
  | fin (q : ℚ)
  | nonfin
deriving DecidableEq

/-- Rounding of a rational to the nearest integer, a tie going to the even neighbour. -/
def roundHalfEven (q : ℚ) : Int :=
  if q - (Int.floor q : ℚ) < 1 / 2 then Int.floor q
  else if 1 / 2 < q - (Int.floor q : ℚ) then Int.floor q + 1
  else if Int.floor q % 2 = 0 then Int.floor q
  else Int.floor q + 1

/-- IEEE 754 rounding of an exact result to binary32, round to nearest, ties to even: 24
significant bits, least exponent -126 (below it the spacing stays `2^-149`, the subnormal
range), and a rounded magnitude of `2^128` or more overflows to an infinity. -/
def round32 (q : ℚ) : F32 :=
  let e : Int := max (Int.log 2 |q|) (-126)
  let ulp : ℚ := (2 : ℚ) ^ (e - 23)
  let r : ℚ := (roundHalfEven (q / ulp) : ℚ) * ulp
  if |r| < (2 : ℚ) ^ (128 : Int) then .fin r else .nonfin

/-- The `float` division `a / b` by a finite `b`: a zero divisor or a non-finite dividend gives
a non-finite quotient. -/
def F32.div (a : F32) (b : ℚ) : F32 :=
  match a with
  | .fin x => if b = 0 then .nonfin else round32 (x / b)
  | .nonfin => .nonfin

/-- The `float` sum `a + b` with a finite `b`. -/
def F32.add (a : F32) (b : ℚ) : F32 :=
  match a with
  | .fin x => round32 (x + b)
  | .nonfin => .nonfin

/-- The `float` product `a * b` with a finite `b`. -/
def F32.mul (a : F32) (b : ℚ) : F32 :=
  match a with
  | .fin x => round32 (x * b)
  | .nonfin => .nonfin

/-- C `floorf`: exact on every finite binary32 value, the identity on the others. -/
def floorf (a : F32) : F32 :=
  match a with
  | .fin x => .fin (Int.floor x)
  | .nonfin => .nonfin

/-- SDK `Point3` as stored in a node transform: three binary32 coordinates. -/
structure FPoint3 where
  x : F32
  y : F32
  z : F32
deriving DecidableEq

/-- SDK `Matrix3` as stored in a node transform: three basis rows and the translation row. -/
structure FMatrix3 where
  row0 : FPoint3
  row1 : FPoint3
  row2 : FPoint3
  row3 : FPoint3
deriving DecidableEq

/-- SDK `Matrix3::GetTrans()` on a node transform. -/
def FMatrix3.GetTrans (tm : FMatrix3) : FPoint3 := tm.row3

/-- SDK `Matrix3::SetTrans(p)` on a node transform. -/
def FMatrix3.SetTrans (tm : FMatrix3) (p : FPoint3) : FMatrix3 := { tm with row3 := p }

/-! ## Host SDK: scene nodes and the `Interface` -/

/-- SDK `INode`: a node of the scene tree. `handle` is the identity of the node (its address),
`EvalWorldState t` is the class ID of `EvalWorldState(t).obj` (`none` for a null object), and
`children` lists `GetChildNode(0)`, ..., `GetChildNode(NumberOfChildren() - 1)`. -/
inductive INode where
  | mk (handle : Nat) (EvalWorldState : Int → Option Class_ID) (children : List INode)

/-- The identity of a node. -/
def INode.handle : INode → Nat
  | .mk h _ _ => h

/-- Class ID of the object a node evaluates to at time `t`, `none` when the object is null. -/
def INode.EvalWorldState : INode → Int → Option Class_ID
  | .mk _ e _ => e

/-- The children of a node, in `GetChildNode` order. -/
def INode.children : INode → List INode
  | .mk _ _ c => c

/-- The host state behind an `Interface*`: the scene tree, the current time, the selected nodes
(`GetSelNode(0)`, ..., by handle), the wire colour and the world transform of every node (by
handle, at the current time), the grid spacing, and the message boxes shown so far (text,
caption). `hostSetNodeTM tms node t tm` is the host's reaction to `SetNodeTM(t, tm)` on `node`
when the world transforms are `tms`: the new world transforms of all nodes (the host moves the
nodes linked to `node` along with it). `nodeTMCalls` lists the `SetNodeTM` calls received,
oldest first. -/
structure Interface where
  root : INode
  time : Int
  sel : List Nat
  wireColor : Nat → Nat
  nodeTM : Nat → FMatrix3
  hostSetNodeTM : (Nat → FMatrix3) → Nat → Int → FMatrix3 → (Nat → FMatrix3)
  nodeTMCalls : List (Nat × Int × FMatrix3)
  gridSpacing : ℚ
  msgBoxes : List (String × String)

/-- SDK `Interface::ClearNodeSelection(redraw)`: empties the selection. -/
def Interface.ClearNodeSelection (ip : Interface) (redraw : Bool) : Interface :=
  { ip with sel := [] }

/-- SDK `Interface::SelectNode(node, clearSel)`: empties the selection first when `clearSel`
is set, then adds `node` to it. -/
def Interface.SelectNode (ip : Interface) (node : Nat) (clearSel : Bool) : Interface :=
  let sel := if clearSel then [] else ip.sel
  { ip with sel := if node ∈ sel then sel else sel ++ [node] }

/-- SDK `MaxMsgBox(hwnd, text, caption, MB_OK)`: recorded in the host state. -/
def Interface.MaxMsgBox (ip : Interface) (text caption : String) : Interface :=
  { ip with msgBoxes := ip.msgBoxes ++ [(text, caption)] }

/-- SDK `INode::SetWireColor(color)` on the node with the given handle. -/
def Interface.SetWireColor (ip : Interface) (node : Nat) (color : Nat) : Interface :=
  { ip with wireColor := Function.update ip.wireColor node color }

/-- SDK `INode::SetNodeTM(t, tm)` on the node with the given handle: the call is recorded and
the host updates the world transforms. -/
def Interface.SetNodeTM (ip : Interface) (node : Nat) (t : Int) (tm : FMatrix3) : Interface :=
  { ip with
    nodeTM := ip.hostSetNodeTM ip.nodeTM node t tm
    nodeTMCalls := ip.nodeTMCalls ++ [(node, t, tm)] }

/-- SDK `INode::GetNodeTM(t)` on the node with the given handle: its world transform. -/
def Interface.GetNodeTM (ip : Interface) (node : Nat) (t : Int) : FMatrix3 := ip.nodeTM node

/-- A host reaction to `SetNodeTM` that changes the transform of the given node only: the
behaviour of the host on a node nothing is linked to. -/
def unlinkedSetNodeTM (tms : Nat → FMatrix3) (node : Nat) (t : Int) (tm : FMatrix3) :
    Nat → FMatrix3 :=
  Function.update tms node tm

/-- A host reaction to `SetNodeTM` in a scene where `child` is linked to `parent` with the
identity as its local transform, so that its world transform is its parent's. -/
def linkedSetNodeTM (parent child : Nat) (tms : Nat → FMatrix3) (node : Nat) (t : Int)
    (tm : FMatrix3) : Nat → FMatrix3 :=
  if node = parent then Function.update (Function.update tms parent tm) child tm
  else Function.update tms node tm

/-! ## utility_plugin.cpp: the four utility operations -/

mutual
/-- The lambda `countNodes` of `CountObjects`, with the captured `count` passed through. -/
def countNodes : INode → Nat → Nat
  | .mk _ _ children, count => countNodesLoop children count
/-- The `for` loop of `countNodes` over the remaining children. -/
def countNodesLoop : List INode → Nat → Nat
  | [], count => count
  | child :: rest, count => countNodesLoop rest (countNodes child (count + 1))
end

/-- Source `UtilityPluginDemo::CountObjects()`; `m_ip = none` is the null interface. The result is the
host state after the call. -/
def CountObjects (m_ip : Option Interface) : Option Interface :=
  match m_ip with
  | none => none
  | some ip =>
    let count := 0
    let root := ip.root
    let count := countNodes root count
    let msg := "Scene contains " ++ toString count ++ " objects"
    some (ip.MaxMsgBox msg "Object Count")

mutual
/-- The lambda `findNodes` of `SelectByType`, with the captured `nodes` passed through. -/
def findNodes (t : Int) (classId : Class_ID) : INode → List Nat → List Nat
  | .mk _ _ children, nodes => findNodesLoop t classId children nodes
/-- The `for` loop of `findNodes` over the remaining children. -/
def findNodesLoop (t : Int) (classId : Class_ID) : List INode → List Nat → List Nat
  | [], nodes => nodes
  | child :: rest, nodes =>
    let obj := child.EvalWorldState t
    let nodes := if obj = some classId then nodes ++ [child.handle] else nodes
    findNodesLoop t classId rest (findNodes t classId child nodes)
end

/-- The selection loop of `SelectByType`: `m_ip->SelectNode(nodes[i], TRUE)` for each `i`. -/
def selectLoop : List Nat → Interface → Interface
  | [], ip => ip
  | node :: rest, ip => selectLoop rest (ip.SelectNode node true)

/-- Source `UtilityPluginDemo::SelectByType(classId)`. -/
def SelectByType (m_ip : Option Interface) (classId : Class_ID) : Option Interface :=
  match m_ip with
  | none => none
  | some ip =>
    let root := ip.root
    let t := ip.time
    let nodes := findNodes t classId root []
    let ip := if nodes.length > 0 then selectLoop nodes (ip.ClearNodeSelection false) else ip
    let msg := "Selected " ++ toString nodes.length ++ " objects"
    some (ip.MaxMsgBox msg "Selection")

/-- Windows `RGB(r, g, b)`:
`(BYTE)(r) | ((WORD)((BYTE)(g)) << 8) | (((DWORD)(BYTE)(b)) << 16)`. -/
def RGB (r g b : Nat) : Nat := (r % 256) ||| ((g % 256) <<< 8) ||| ((b % 256) <<< 16)

/-- The loop of `RandomizeColors`. `draws k` is the `k`-th value `dis(gen)` returns, a value of
`uniform_int_distribution<>(0, 255)`; `k` is the number of draws made so far, and the three
draws of one colour are taken left to right. -/
def randomizeLoop (draws : Nat → Fin 256) : List Nat → Nat → Interface → Interface
  | [], _, ip => ip
  | node :: rest, k, ip =>
    let color := RGB (draws k) (draws (k + 1)) (draws (k + 2))
    randomizeLoop draws rest (k + 3) (ip.SetWireColor node color)

/-- Source `UtilityPluginDemo::RandomizeColors()`; the closing `RedrawViews` changes no node. -/
def RandomizeColors (m_ip : Option Interface) (draws : Nat → Fin 256) : Option Interface :=
  match m_ip with
  | none => none
  | some ip => some (randomizeLoop draws ip.sel 0 ip)

/-- The loop of `AlignToGrid` over the selected nodes; `1 / 2` is the constant `0.5f`. -/
def alignLoop (t : Int) (gridSpacing : ℚ) : List Nat → Interface → Interface
  | [], ip => ip
  | node :: rest, ip =>
    let tm := ip.GetNodeTM node t
    let pos := tm.GetTrans
    let pos := { pos with x := (floorf ((pos.x.div gridSpacing).add (1 / 2))).mul gridSpacing }
    let pos := { pos with y := (floorf ((pos.y.div gridSpacing).add (1 / 2))).mul gridSpacing }
    let pos := { pos with z := (floorf ((pos.z.div gridSpacing).add (1 / 2))).mul gridSpacing }
    let tm := tm.SetTrans pos
    alignLoop t gridSpacing rest (ip.SetNodeTM node t tm)

/-- Source `UtilityPluginDemo::AlignToGrid()`; `theHold.Begin/Accept` and `RedrawViews` change no
node. -/
def AlignToGrid (m_ip : Option Interface) : Option Interface :=
  match m_ip with
  | none => none
  | some ip =>
    let t := ip.time
    let gridSpacing := ip.gridSpacing
    some (alignLoop t gridSpacing ip.sel ip)

/-! ### Derived notions used to state the scene properties -/

mutual
/-- The proper descendants of a node, in depth-first order. -/
def INode.descendants : INode → List INode
  | .mk _ _ children => INode.descendantsList children
/-- The nodes of a forest: every tree's root followed by its proper descendants. -/
def INode.descendantsList : List INode → List INode
  | [] => []
  | child :: rest => (child :: child.descendants) ++ INode.descendantsList rest
end

mutual
/-- The number of nodes of a tree, the root included. -/
def INode.size : INode → Nat
  | .mk _ _ children => 1 + INode.sizeList children
/-- The number of nodes of a forest. -/
def INode.sizeList : List INode → Nat
  | [] => 0
  | child :: rest => child.size + INode.sizeList rest
end

/-- A node matches a class ID at time `t` when its evaluated object is non-null and has that
class ID. -/
def INode.matches (t : Int) (classId : Class_ID) (n : INode) : Bool :=
  n.EvalWorldState t = some classId

/-- The snapped coordinate `floor(x / g + 1/2) * g`, in exact arithmetic. -/
def snapped (g x : ℚ) : ℚ := (Int.floor (x / g + 1 / 2) : ℚ) * g

/-- The snapped coordinate as `AlignToGrid` computes it: the quotient, the sum and the product
are each rounded to binary32. -/
def snappedF32 (g : ℚ) (x : F32) : F32 := (floorf ((x.div g).add (1 / 2))).mul g

/-- A rational is a finite binary32 value when rounding leaves it as it is. -/
def isBinary32 (v : ℚ) : Prop := round32 v = .fin v

/-- A node transform with each translation component replaced by the value `AlignToGrid`
computes for it, the other rows kept. -/
def snapTM (g : ℚ) (tm : FMatrix3) : FMatrix3 :=
  { tm with row3 := ⟨snappedF32 g tm.row3.x, snappedF32 g tm.row3.y, snappedF32 g tm.row3.z⟩ }

/-- The handles of the proper descendants of `root` that match `classId` at time `t`, in
depth-first order. -/
def matchingNodes (t : Int) (classId : Class_ID) (root : INode) : List Nat :=
  (root.descendants.filter (INode.matches t classId)).map INode.handle

/-- SDK `BOXOBJ_CLASS_ID` (part A of the class ID of the built-in box). -/
def BOXOBJ_CLASS_ID : Nat := 0x10

/-- The identity transform. -/
def identityTM : FMatrix3 :=
  ⟨⟨.fin 1, .fin 0, .fin 0⟩, ⟨.fin 0, .fin 1, .fin 0⟩, ⟨.fin 0, .fin 0, .fin 1⟩,
   ⟨.fin 0, .fin 0, .fin 0⟩⟩

/-- A scene with two boxes under the root: node 1 and node 2, nothing selected, nothing
linked. -/
def twoBoxScene : Interface where
  root := .mk 0 (fun _ => none)
    [.mk 1 (fun _ => some ⟨BOXOBJ_CLASS_ID, 0⟩) [], .mk 2 (fun _ => some ⟨BOXOBJ_CLASS_ID, 0⟩) []]
  time := 0
  sel := []
  wireColor := fun _ => 0
  nodeTM := fun _ => identityTM
  hostSetNodeTM := unlinkedSetNodeTM
  nodeTMCalls := []
  gridSpacing := 10
  msgBoxes := []

/-- A scene with grid spacing 8 in which node 2 is a child of node 1, linked with the identity
as local transform; both are at translation `(3, 3, 3)` and only node 1 is selected. -/
def linkedScene : Interface where
  root := .mk 0 (fun _ => none) [.mk 1 (fun _ => none) [.mk 2 (fun _ => none) []]]
  time := 0
  sel := [1]
  wireColor := fun _ => 0
  nodeTM := fun _ => { identityTM with row3 := ⟨.fin 3, .fin 3, .fin 3⟩ }
  hostSetNodeTM := linkedSetNodeTM 1 2
  nodeTMCalls := []
  gridSpacing := 8
  msgBoxes := []

/-! ## Theorems: the pyramid mesh -/

theorem BuildPyramidMesh_verts (mesh : Mesh) (baseSize height : ℚ) (segments : Int) :
    (BuildPyramidMesh mesh baseSize height segments).verts =
      [⟨-(baseSize / 2), -(baseSize / 2), 0⟩, ⟨baseSize / 2, -(baseSize / 2), 0⟩,
       ⟨baseSize / 2, baseSize / 2, 0⟩, ⟨-(baseSize / 2), baseSize / 2, 0⟩, ⟨0, 0, height⟩] := by
  rfl

theorem BuildPyramidMesh_faces (mesh : Mesh) (baseSize height : ℚ) (segments : Int) :
    (BuildPyramidMesh mesh baseSize height segments).faces =
      [⟨0, 1, 4, 1, 3⟩, ⟨1, 2, 4, 1, 3⟩, ⟨2, 3, 4, 1, 3⟩, ⟨3, 0, 4, 1, 3⟩,
       ⟨0, 3, 1, 2, 5⟩, ⟨1, 3, 2, 2, 6⟩] := by
  simp [BuildPyramidMesh, Mesh.onFace, Mesh.setVert, Mesh.setNumFaces, Mesh.setNumVerts,
    Face.setVerts, Face.setSmGroup, Face.setEdgeVisFlags, List.replicate, EDGE_A, EDGE_B, EDGE_C,
    EDGE_ALL]

theorem BuildPyramidMesh_dirEdges (mesh : Mesh) (baseSize height : ℚ) (segments : Int) :
    (BuildPyramidMesh mesh baseSize height segments).dirEdges =
      [(0, 1), (1, 4), (4, 0), (1, 2), (2, 4), (4, 1), (2, 3), (3, 4), (4, 2),
       (3, 0), (0, 4), (4, 3), (0, 3), (3, 1), (1, 0), (1, 3), (3, 2), (2, 1)] := by
  rw [Mesh.dirEdges, BuildPyramidMesh_faces]; rfl

theorem BuildPyramidMesh_edges (mesh : Mesh) (baseSize height : ℚ) (segments : Int) :
    (BuildPyramidMesh mesh baseSize height segments).edges =
      [(1, 4), (2, 4), (0, 4), (3, 4), (0, 3), (0, 1), (1, 3), (2, 3), (1, 2)] := by
  rw [Mesh.edges, BuildPyramidMesh_dirEdges]; decide

theorem BuildPyramidMesh_signedVolume (mesh : Mesh) (baseSize height : ℚ) (segments : Int) :
    (BuildPyramidMesh mesh baseSize height segments).signedVolume
      = baseSize ^ 2 * height / 3 := by
  rw [Mesh.signedVolume, BuildPyramidMesh_faces]
  simp only [List.map_cons, List.map_nil, List.sum_cons, List.sum_nil, Mesh.getVert,
    BuildPyramidMesh_verts]
  simp [det3]
  ring

/-- C1: for every prior mesh, `baseSize`, `height` and `segments`, `BuildPyramidMesh` leaves
exactly the five vertices `(-b/2,-b/2,0)`, `(b/2,-b/2,0)`, `(b/2,b/2,0)`, `(-b/2,b/2,0)`,
`(0,0,height)` and exactly the six faces `(0,1,4)`, `(1,2,4)`, `(2,3,4)`, `(3,0,4)`, `(0,3,1)`,
`(1,3,2)`, the first four in smoothing group 1 and the last two in smoothing group 2; every
face index is below the vertex count; the result depends neither on `segments` nor on the prior
mesh, and `BuildMesh` produces it from the parameter block's values. -/
theorem C1_BuildPyramidMesh_reference (mesh : Mesh) (baseSize height : ℚ) (segments : Int) :
    (BuildPyramidMesh mesh baseSize height segments).verts =
        [⟨-(baseSize / 2), -(baseSize / 2), 0⟩, ⟨baseSize / 2, -(baseSize / 2), 0⟩,
         ⟨baseSize / 2, baseSize / 2, 0⟩, ⟨-(baseSize / 2), baseSize / 2, 0⟩, ⟨0, 0, height⟩] ∧
      (BuildPyramidMesh mesh baseSize height segments).verts.length = 5 ∧
      (BuildPyramidMesh mesh baseSize height segments).faces.map
          (fun f => (f.verts, f.smGroup)) =
        [((0, 1, 4), 1), ((1, 2, 4), 1), ((2, 3, 4), 1), ((3, 0, 4), 1),
         ((0, 3, 1), 2), ((1, 3, 2), 2)] ∧
      (BuildPyramidMesh mesh baseSize height segments).faces.length = 6 ∧
      (∀ f ∈ (BuildPyramidMesh mesh baseSize height segments).faces,
        f.v0 < (BuildPyramidMesh mesh baseSize height segments).verts.length ∧
        f.v1 < (BuildPyramidMesh mesh baseSize height segments).verts.length ∧
        f.v2 < (BuildPyramidMesh mesh baseSize height segments).verts.length) ∧
      (∀ (mesh' : Mesh) (segments' : Int),
        BuildPyramidMesh mesh' baseSize height segments' =
          BuildPyramidMesh mesh baseSize height segments) ∧
      (∀ (pblock2 : Int → PyramidParams) (t : Int),
        (pblock2 t).baseSize = baseSize → (pblock2 t).height = height →
        BuildMesh pblock2 mesh t = BuildPyramidMesh mesh baseSize height segments) := by
  have hv := BuildPyramidMesh_verts mesh baseSize height segments
  have hf := BuildPyramidMesh_faces mesh baseSize height segments
  refine ⟨hv, ?_, ?_, ?_, ?_, ?_, ?_⟩
  · rw [hv]; rfl
  · rw [hf]; rfl
  · rw [hf]; rfl
  · rw [hf, hv]; simp
  · intro mesh' segments'; rfl
  · intro pblock2 t hb hh
    simp only [BuildMesh, hb, hh]
    rfl

/-- The C1 theorem at the default parameters of the parameter block (base 50, height 100,
one segment), read through `BuildMesh`. -/
theorem C1_BuildPyramidMesh_reference_witness :
    BuildMesh (fun _ => ⟨50, 100, 1⟩) {} 0 = BuildPyramidMesh {} 50 100 7 :=
  (C1_BuildPyramidMesh_reference {} 50 100 7).2.2.2.2.2.2 (fun _ => ⟨50, 100, 1⟩) 0 rfl rfl

/-- C8: the mesh of `BuildPyramidMesh` is closed and consistently oriented: its 18 directed
edges are pairwise distinct and the reverse of each is again a directed edge, so it has 9
undirected edges, each met by exactly two directed edges, and `V - E + F = 2`; its signed
volume is `baseSize^2 * height / 3`, positive when `baseSize > 0` and `height > 0`. -/
theorem C8_pyramid_closed_oriented (mesh : Mesh) (baseSize height : ℚ) (segments : Int) :
    (BuildPyramidMesh mesh baseSize height segments).dirEdges.length = 18 ∧
      (BuildPyramidMesh mesh baseSize height segments).dirEdges.Nodup ∧
      (∀ e ∈ (BuildPyramidMesh mesh baseSize height segments).dirEdges,
        (e.2, e.1) ∈ (BuildPyramidMesh mesh baseSize height segments).dirEdges) ∧
      (BuildPyramidMesh mesh baseSize height segments).edges.length = 9 ∧
      (∀ e ∈ (BuildPyramidMesh mesh baseSize height segments).edges,
        ((BuildPyramidMesh mesh baseSize height segments).dirEdges.map undirected).count e = 2) ∧
      ((BuildPyramidMesh mesh baseSize height segments).verts.length : Int)
          - (BuildPyramidMesh mesh baseSize height segments).edges.length
          + (BuildPyramidMesh mesh baseSize height segments).faces.length = 2 ∧
      (BuildPyramidMesh mesh baseSize height segments).signedVolume
        = baseSize ^ 2 * height / 3 ∧
      (0 < baseSize → 0 < height →
        0 < (BuildPyramidMesh mesh baseSize height segments).signedVolume) := by
  have hv := BuildPyramidMesh_verts mesh baseSize height segments
  have hf := BuildPyramidMesh_faces mesh baseSize height segments
  have hvol := BuildPyramidMesh_signedVolume mesh baseSize height segments
  have hd := BuildPyramidMesh_dirEdges mesh baseSize height segments
  have he := BuildPyramidMesh_edges mesh baseSize height segments
  generalize BuildPyramidMesh mesh baseSize height segments = m at hv hf hd he hvol ⊢
  refine ⟨?_, ?_, ?_, ?_, ?_, ?_, hvol, ?_⟩
  · rw [hd]; rfl
  · rw [hd]; decide
  · rw [hd]; decide
  · rw [he]; rfl
  · rw [he, hd]; decide
  · rw [he, hf, hv]; rfl
  · intro hb hh
    have hpos : 0 < baseSize ^ 2 * height / 3 := by positivity
    exact lt_of_lt_of_eq hpos hvol.symm

/-- The C8 theorem at base size 2 and height 3: the signed volume is positive. -/
theorem C8_pyramid_closed_oriented_witness :
    0 < (BuildPyramidMesh {} 2 3 1).signedVolume :=
  (C8_pyramid_closed_oriented {} 2 3 1).2.2.2.2.2.2.2 (by norm_num) (by norm_num)

/-- C9: in the mesh of `BuildPyramidMesh` the base diagonal between vertices 1 and 3 is
flagged invisible in both base triangles (faces 4 and 5, the only faces containing it), and
each of the other 8 edges is flagged visible in at least one of the two faces that contain
it. -/
theorem C9_pyramid_edge_visibility (mesh : Mesh) (baseSize height : ℚ) (segments : Int) :
    ((BuildPyramidMesh mesh baseSize height segments).faces.map (fun f => f.visOf 1 3)) =
        [none, none, none, none, some false, some false] ∧
      (BuildPyramidMesh mesh baseSize height segments).edges.length = 9 ∧
      (1, 3) ∈ (BuildPyramidMesh mesh baseSize height segments).edges ∧
      (∀ e ∈ (BuildPyramidMesh mesh baseSize height segments).edges, e ≠ (1, 3) →
        ((BuildPyramidMesh mesh baseSize height segments).edgeVisIn e.1 e.2).length = 2 ∧
        true ∈ (BuildPyramidMesh mesh baseSize height segments).edgeVisIn e.1 e.2) := by
  have hf := BuildPyramidMesh_faces mesh baseSize height segments
  have he := BuildPyramidMesh_edges mesh baseSize height segments
  generalize BuildPyramidMesh mesh baseSize height segments = m at hf he ⊢
  refine ⟨?_, ?_, ?_, ?_⟩
  · rw [hf]; decide
  · rw [he]; rfl
  · rw [he]; decide
  · rw [he]; simp only [Mesh.edgeVisIn, hf]; decide

/-- The C9 theorem at the base edge between vertices 0 and 1. -/
theorem C9_pyramid_edge_visibility_witness :
    ((BuildPyramidMesh {} 2 3 1).edgeVisIn 0 1).length = 2 ∧
      true ∈ (BuildPyramidMesh {} 2 3 1).edgeVisIn 0 1 :=
  (C9_pyramid_edge_visibility {} 2 3 1).2.2.2 (0, 1)
    (by rw [BuildPyramidMesh_edges]; decide) (by decide)

/-! ## Theorems: the creation callback -/

/-- C10: `proc` returns `CREATE_ABORT` exactly when the viewport is null or not alive or the
message is `MOUSE_ABORT`; `CREATE_STOP` exactly when the viewport is valid, the message is
`MOUSE_POINT` and the point index is 2; `CREATE_CONTINUE` in every other case. It calls
`SetValue` only when the viewport is valid and the point index is 1 with message `MOUSE_POINT`
or `MOUSE_MOVE`; it then writes a base size and a height at time 0, and the height is exactly
twice the base size. -/
theorem C10_proc_result_and_writes (Length : Point3 → ℚ) (self : PyramidCreateCallBack)
    (vpt : Option ViewExp) (msg point flags : Int) (m : IPoint2) (mat : Matrix3) :
    ((self.proc Length vpt msg point flags m mat).1 = CREATE_ABORT ↔
        (validViewport vpt = false ∨ msg = MOUSE_ABORT)) ∧
      ((self.proc Length vpt msg point flags m mat).1 = CREATE_STOP ↔
        (validViewport vpt = true ∧ msg = MOUSE_POINT ∧ point = 2)) ∧
      (¬ (validViewport vpt = false ∨ msg = MOUSE_ABORT) →
        ¬ (validViewport vpt = true ∧ msg = MOUSE_POINT ∧ point = 2) →
        (self.proc Length vpt msg point flags m mat).1 = CREATE_CONTINUE) ∧
      (¬ writesParams vpt msg point →
        (self.proc Length vpt msg point flags m mat).2.1.pblock2.setCalls
          = self.pblock2.setCalls) ∧
      (writesParams vpt msg point →
        ∃ dist : ℚ, (self.proc Length vpt msg point flags m mat).2.1.pblock2.setCalls
          = self.pblock2.setCalls ++
              [(ParamID.pb_base_size, 0, dist), (ParamID.pb_height, 0, 2 * dist)]) := by
  cases vpt with
  | none =>
    simp [PyramidCreateCallBack.proc, validViewport, writesParams, CREATE_ABORT, CREATE_STOP]
  | some v =>
    cases hv : v.IsAlive
    · simp [PyramidCreateCallBack.proc, validViewport, writesParams, hv, CREATE_ABORT,
        CREATE_STOP]
    · by_cases h1 : msg = MOUSE_POINT
      · by_cases p0 : point = 0
        · subst h1 p0
          simp [PyramidCreateCallBack.proc, validViewport, writesParams, hv, CREATE_ABORT,
            CREATE_STOP, CREATE_CONTINUE, MOUSE_POINT, MOUSE_ABORT, MOUSE_MOVE]
        · by_cases p1 : point = 1
          · subst h1 p1
            simp [PyramidCreateCallBack.proc, validViewport, writesParams, hv, CREATE_ABORT,
              CREATE_STOP, CREATE_CONTINUE, MOUSE_POINT, MOUSE_ABORT, MOUSE_MOVE,
              IParamBlock2.SetValue, mul_comm]
          · by_cases p2 : point = 2
            · subst h1 p2
              simp [PyramidCreateCallBack.proc, validViewport, writesParams, hv, CREATE_ABORT,
                CREATE_STOP, CREATE_CONTINUE, MOUSE_POINT, MOUSE_ABORT, MOUSE_MOVE]
            · subst h1
              simp [PyramidCreateCallBack.proc, validViewport, writesParams, hv, CREATE_ABORT,
                CREATE_STOP, CREATE_CONTINUE, MOUSE_POINT, MOUSE_ABORT, MOUSE_MOVE, p0, p1, p2]
      · by_cases h2 : msg = MOUSE_MOVE
        · by_cases p1 : point = 1
          · subst h2 p1
            simp [PyramidCreateCallBack.proc, validViewport, writesParams, hv, CREATE_ABORT,
              CREATE_STOP, CREATE_CONTINUE, MOUSE_POINT, MOUSE_ABORT, MOUSE_MOVE,
              IParamBlock2.SetValue, mul_comm]
          · subst h2
            simp [PyramidCreateCallBack.proc, validViewport, writesParams, hv, CREATE_ABORT,
              CREATE_STOP, CREATE_CONTINUE, MOUSE_POINT, MOUSE_ABORT, MOUSE_MOVE, p1]
        · by_cases h3 : msg = MOUSE_ABORT
          · subst h3
            simp [PyramidCreateCallBack.proc, validViewport, writesParams, hv, CREATE_ABORT,
              CREATE_STOP, CREATE_CONTINUE, MOUSE_POINT, MOUSE_ABORT, MOUSE_MOVE]
          · simp [PyramidCreateCallBack.proc, validViewport, writesParams, hv, CREATE_ABORT,
              CREATE_STOP, CREATE_CONTINUE, h1, h2, h3]

/-- The C10 theorem at a second click: with a live viewport, message `MOUSE_POINT` and point
index 1, `proc` writes base size `d` and height `2 * d` (here `Length` is the sum of the
coordinates' squares and the two snapped points are 3 apart along x, so `d = 9`). -/
theorem C10_proc_result_and_writes_witness :
    ∃ dist : ℚ,
      (PyramidCreateCallBack.proc (fun p => p.x * p.x + p.y * p.y + p.z * p.z)
          ⟨{}, ⟨0, 0, 0⟩, ⟨0, 0, 0⟩, ⟨0, 0⟩⟩ (some ⟨true, fun q => ⟨q.x, q.y, 0⟩⟩)
          MOUSE_POINT 1 0 ⟨3, 0⟩ ⟨⟨1, 0, 0⟩, ⟨0, 1, 0⟩, ⟨0, 0, 1⟩, ⟨0, 0, 0⟩⟩).2.1.pblock2.setCalls
        = ([] : List (ParamID × Int × ℚ)) ++
            [(ParamID.pb_base_size, 0, dist), (ParamID.pb_height, 0, 2 * dist)] :=
  (C10_proc_result_and_writes (fun p => p.x * p.x + p.y * p.y + p.z * p.z)
      ⟨{}, ⟨0, 0, 0⟩, ⟨0, 0, 0⟩, ⟨0, 0⟩⟩ (some ⟨true, fun q => ⟨q.x, q.y, 0⟩⟩)
      MOUSE_POINT 1 0 ⟨3, 0⟩ ⟨⟨1, 0, 0⟩, ⟨0, 1, 0⟩, ⟨0, 0, 1⟩, ⟨0, 0, 0⟩⟩).2.2.2.2
    ⟨rfl, rfl, Or.inl rfl⟩

/-! ## Theorems: the exported factory functions -/

/-- C5: `LibNumberClasses()` is 1; `LibClassDesc(i)` returns a descriptor exactly when
`0 <= i < LibNumberClasses()` and null otherwise, in particular for every negative `i`; the
descriptor at index 0 is the utility descriptor, with class ID `(0x12345678, 0xABCDEF00)` and
the utility super class. -/
theorem C5_factory_functions_agree :
    LibNumberClasses = 1 ∧
      (∀ i : Int, (LibClassDesc i).isSome = true ↔ (0 ≤ i ∧ i < LibNumberClasses)) ∧
      (∀ i : Int, LibClassDesc i = none ↔ ¬ (0 ≤ i ∧ i < LibNumberClasses)) ∧
      (∀ i : Int, i < 0 → LibClassDesc i = none) ∧
      LibClassDesc 0 = some utilityPluginDesc ∧
      utilityPluginDesc.ClassID = ⟨0x12345678, 0xABCDEF00⟩ ∧
      utilityPluginDesc.SuperClassID = UTILITY_CLASS_ID := by
  refine ⟨rfl, ?_, ?_, ?_, rfl, rfl, rfl⟩
  · intro i
    by_cases h : i = 0
    · subst h; simp [LibClassDesc, LibNumberClasses]
    · simp only [LibClassDesc, LibNumberClasses, h, if_false, Option.isSome_none]
      constructor
      · intro hf; exact absurd hf (by decide)
      · intro hr; omega
  · intro i
    by_cases h : i = 0
    · subst h; simp [LibClassDesc, LibNumberClasses]
    · simp only [LibClassDesc, LibNumberClasses, h, if_false, true_iff]
      omega
  · intro i hi
    have h : i ≠ 0 := by omega
    simp [LibClassDesc, h]

/-- The C5 theorem at index -1: `LibClassDesc(-1)` is null. -/
theorem C5_factory_functions_agree_witness : LibClassDesc (-1) = none :=
  C5_factory_functions_agree.2.2.2.1 (-1) (by decide)

/-- C6 as stated fails: it is not the case that both descriptors are returned by
`LibClassDesc` at an index below `LibNumberClasses()` (and have different class IDs), because
no index yields the pyramid descriptor. -/
theorem C6_counterexample_pyramid_not_exported :
    ¬ ((∃ i : Int, 0 ≤ i ∧ i < LibNumberClasses ∧ LibClassDesc i = some pyramidClassDesc) ∧
       (∃ i : Int, 0 ≤ i ∧ i < LibNumberClasses ∧ LibClassDesc i = some utilityPluginDesc) ∧
       pyramidClassDesc.ClassID ≠ utilityPluginDesc.ClassID) := by
  rintro ⟨⟨i, h0, h1, h⟩, -⟩
  have hi : i = 0 := by simp only [LibNumberClasses] at h1; omega
  subst hi
  revert h
  decide

/-- C6, amended: the utility descriptor, with class ID `(0x12345678, 0xABCDEF00)`, is returned
by `LibClassDesc(0)` with `0 < LibNumberClasses()`; the pyramid descriptor, with class ID
`(0x87654321, 0xFEDCBA98)`, is returned by `LibClassDesc` for no index; the two descriptors
have different class IDs. -/
theorem C6_only_utility_descriptor_exported :
    utilityPluginDesc.ClassID = ⟨0x12345678, 0xABCDEF00⟩ ∧
      pyramidClassDesc.ClassID = ⟨0x87654321, 0xFEDCBA98⟩ ∧
      (∃ i : Int, 0 ≤ i ∧ i < LibNumberClasses ∧ LibClassDesc i = some utilityPluginDesc) ∧
      (∀ i : Int, LibClassDesc i ≠ some pyramidClassDesc) ∧
      pyramidClassDesc.ClassID ≠ utilityPluginDesc.ClassID := by
  refine ⟨rfl, rfl, ⟨0, by decide, by decide, rfl⟩, ?_, by decide⟩
  intro i
  by_cases h : i = 0
  · subst h; decide
  · simp [LibClassDesc, h]

/-! ## Theorems: counting and selecting scene nodes -/

mutual
theorem countNodes_eq : ∀ (node : INode) (count : Nat),
    countNodes node count = count + node.descendants.length
  | .mk _ _ children, count => by
    rw [countNodes, INode.descendants, countNodesLoop_eq children count]
theorem countNodesLoop_eq : ∀ (l : List INode) (count : Nat),
    countNodesLoop l count = count + (INode.descendantsList l).length
  | [], count => by simp [countNodesLoop, INode.descendantsList]
  | child :: rest, count => by
    rw [countNodesLoop, INode.descendantsList, countNodes_eq child, countNodesLoop_eq rest]
    simp only [List.length_append, List.length_cons]
    omega
end

mutual
theorem descendants_length_succ : ∀ (node : INode), node.descendants.length + 1 = node.size
  | .mk _ _ children => by
    rw [INode.descendants, INode.size, descendantsList_length children]
    omega
theorem descendantsList_length : ∀ (l : List INode),
    (INode.descendantsList l).length = INode.sizeList l
  | [] => by simp [INode.descendantsList, INode.sizeList]
  | child :: rest => by
    rw [INode.descendantsList, INode.sizeList, ← descendants_length_succ child,
      ← descendantsList_length rest]
    simp only [List.length_append, List.length_cons]
end

/-- C4: with a non-null interface `CountObjects` returns (the walk is a total function of the
finite tree) and reports, in "Scene contains %d objects", the number of proper descendants of
the root, which is the number of nodes of the tree minus the root; for a root without children
it reports 0. -/
theorem C4_CountObjects_counts_proper_descendants (ip : Interface) :
    CountObjects (some ip) =
        some (ip.MaxMsgBox
          ("Scene contains " ++ toString ip.root.descendants.length ++ " objects")
          "Object Count") ∧
      ip.root.descendants.length + 1 = ip.root.size ∧
      (ip.root.children = [] →
        CountObjects (some ip) =
          some (ip.MaxMsgBox "Scene contains 0 objects" "Object Count")) := by
  have h : CountObjects (some ip) =
      some (ip.MaxMsgBox
        ("Scene contains " ++ toString ip.root.descendants.length ++ " objects")
        "Object Count") := by
    simp only [CountObjects, countNodes_eq, Nat.zero_add]
  refine ⟨h, descendants_length_succ ip.root, ?_⟩
  intro hc
  rw [h]
  cases hr : ip.root with
  | mk hd e children =>
    rw [hr] at hc
    simp only [INode.children] at hc
    subst hc
    have h0 : (INode.mk hd e []).descendants.length = 0 := by
      simp [INode.descendants, INode.descendantsList]
    rw [h0]
    rfl

/-- The C4 theorem on a scene whose root has no children: the report is 0. -/
theorem C4_CountObjects_counts_proper_descendants_witness :
    CountObjects (some { twoBoxScene with root := .mk 0 (fun _ => none) [] }) =
      some (Interface.MaxMsgBox { twoBoxScene with root := .mk 0 (fun _ => none) [] }
        "Scene contains 0 objects" "Object Count") :=
  (C4_CountObjects_counts_proper_descendants
    { twoBoxScene with root := .mk 0 (fun _ => none) [] }).2.2 rfl

mutual
theorem findNodes_eq (t : Int) (classId : Class_ID) : ∀ (node : INode) (nodes : List Nat),
    findNodes t classId node nodes = nodes ++ matchingNodes t classId node
  | .mk _ _ children, nodes => by
    rw [findNodes, findNodesLoop_eq t classId children nodes, matchingNodes, INode.descendants]
theorem findNodesLoop_eq (t : Int) (classId : Class_ID) : ∀ (l : List INode) (nodes : List Nat),
    findNodesLoop t classId l nodes =
      nodes ++ ((INode.descendantsList l).filter (INode.matches t classId)).map INode.handle
  | [], nodes => by simp [findNodesLoop, INode.descendantsList]
  | child :: rest, nodes => by
    rw [findNodesLoop, findNodesLoop_eq t classId rest, findNodes_eq t classId child,
      INode.descendantsList, matchingNodes]
    by_cases hm : child.EvalWorldState t = some classId
    · simp [hm, INode.matches, List.filter_cons]
    · simp [hm, INode.matches, List.filter_cons]
end

theorem selectLoop_sel : ∀ (nodes : List Nat) (ip : Interface) (h : nodes ≠ []),
    (selectLoop nodes ip).sel = [nodes.getLast h]
  | [node], ip, _ => by simp [selectLoop, Interface.SelectNode]
  | node :: next :: rest, ip, _ => by
    rw [selectLoop, selectLoop_sel (next :: rest) _ (by simp)]
    simp

theorem selectLoop_msgBoxes : ∀ (nodes : List Nat) (ip : Interface),
    (selectLoop nodes ip).msgBoxes = ip.msgBoxes
  | [], ip => rfl
  | node :: rest, ip => by
    rw [selectLoop, selectLoop_msgBoxes rest]
    rfl

/-- What `SelectByType` does on every scene: it reports the number of matching proper
descendants of the root, leaves the selection alone when there is none, and otherwise leaves
exactly one node selected, the last match in depth-first order. -/
theorem SelectByType_behaviour (ip : Interface) (classId : Class_ID) :
    ∃ ip', SelectByType (some ip) classId = some ip' ∧
      ip'.msgBoxes = ip.msgBoxes ++
        [("Selected " ++ toString (matchingNodes ip.time classId ip.root).length ++ " objects",
          "Selection")] ∧
      (matchingNodes ip.time classId ip.root = [] → ip'.sel = ip.sel) ∧
      (∀ h : matchingNodes ip.time classId ip.root ≠ [],
        ip'.sel = [(matchingNodes ip.time classId ip.root).getLast h]) := by
  refine ⟨_, rfl, ?_, ?_, ?_⟩
  · simp only [findNodes_eq, List.nil_append, Interface.MaxMsgBox]
    split
    · rw [selectLoop_msgBoxes]; rfl
    · rfl
  · intro h
    simp [findNodes_eq, Interface.MaxMsgBox, h]
  · intro h
    have hl : (matchingNodes ip.time classId ip.root).length > 0 := List.length_pos.mpr h
    simp only [findNodes_eq, List.nil_append, Interface.MaxMsgBox, hl, if_true]
    exact selectLoop_sel _ _ h

/-- C2 fails on a root with two box children and nothing selected: both children match, the
message reports "Selected 2 objects", yet only node 2 is selected afterwards, because every
`SelectNode(nodes[i], TRUE)` empties the selection before adding its node. -/
theorem C2_SelectByType_two_boxes_one_selected :
    matchingNodes twoBoxScene.time ⟨BOXOBJ_CLASS_ID, 0⟩ twoBoxScene.root = [1, 2] ∧
      (SelectByType (some twoBoxScene) ⟨BOXOBJ_CLASS_ID, 0⟩).map
          (fun ip => (ip.sel, ip.msgBoxes)) =
        some ([2], [("Selected 2 objects", "Selection")]) := by
  have hm : matchingNodes twoBoxScene.time ⟨BOXOBJ_CLASS_ID, 0⟩ twoBoxScene.root = [1, 2] := by
    simp [matchingNodes, twoBoxScene, INode.descendants, INode.descendantsList, INode.matches,
      INode.EvalWorldState, INode.handle, List.filter_cons]
  refine ⟨hm, ?_⟩
  simp only [SelectByType, findNodes_eq, hm, List.nil_append, Option.map_some']
  simp [selectLoop, Interface.SelectNode, Interface.ClearNodeSelection, Interface.MaxMsgBox,
    twoBoxScene]
  decide

/-! ## Theorems: randomizing wire colours -/

theorem RGB_eq (r g b : Nat) (hr : r < 256) (hg : g < 256) (hb : b < 256) :
    RGB r g b = r + 256 * g + 65536 * b := by
  have h1 : 2 ^ 8 * g + r = 2 ^ 8 * g ||| r := Nat.mul_add_lt_is_or (by omega) g
  have h2 : 2 ^ 16 * b + (r + 256 * g) = 2 ^ 16 * b ||| (r + 256 * g) :=
    Nat.mul_add_lt_is_or (by omega) b
  rw [RGB, Nat.mod_eq_of_lt hr, Nat.mod_eq_of_lt hg, Nat.mod_eq_of_lt hb, Nat.shiftLeft_eq,
    Nat.shiftLeft_eq, Nat.lor_comm r, Nat.mul_comm g, ← h1, Nat.lor_comm, Nat.mul_comm b]
  have h3 : 2 ^ 8 * g + r = r + 256 * g := by omega
  rw [h3, ← h2]
  omega

theorem RGB_lt (r g b : Nat) (hr : r < 256) (hg : g < 256) (hb : b < 256) :
    RGB r g b < 2 ^ 24 := by
  rw [RGB_eq r g b hr hg hb]
  omega

theorem randomizeLoop_not_mem (draws : Nat → Fin 256) (n : Nat) :
    ∀ (l : List Nat) (k : Nat) (ip : Interface), n ∉ l →
      (randomizeLoop draws l k ip).wireColor n = ip.wireColor n
  | [], _, _, _ => rfl
  | node :: rest, k, ip, h => by
    have hne : n ≠ node := fun e => h (e ▸ List.mem_cons_self _ _)
    have hr : n ∉ rest := fun e => h (List.mem_cons_of_mem _ e)
    rw [randomizeLoop, randomizeLoop_not_mem draws n rest _ _ hr]
    simp [Interface.SetWireColor, Function.update, hne]

theorem randomizeLoop_mem (draws : Nat → Fin 256) (n : Nat) :
    ∀ (l : List Nat) (k : Nat) (ip : Interface), n ∈ l →
      ∃ j : Nat, (randomizeLoop draws l k ip).wireColor n =
        RGB (draws j) (draws (j + 1)) (draws (j + 2))
  | node :: rest, k, ip, h => by
    rw [randomizeLoop]
    by_cases hr : n ∈ rest
    · exact randomizeLoop_mem draws n rest _ _ hr
    · have hn : n = node := by
        rcases List.mem_cons.mp h with h | h
        · exact h
        · exact absurd h hr
      rw [randomizeLoop_not_mem draws n rest _ _ hr]
      exact ⟨k, by simp [Interface.SetWireColor, hn]⟩

/-- C7: with a non-null interface and any sequence of draws from `0..255`, `RandomizeColors`
leaves every selected node with a wire colour `RGB(r, g, b) = r + 256*g + 65536*b` built from
three consecutive draws `r, g, b` in `0..255`, hence below `2^24`; the wire colour of every
node that is not selected is unchanged, and with an empty selection no colour changes. -/
theorem C7_RandomizeColors_frame (ip : Interface) (draws : Nat → Fin 256) :
    ∃ ip', RandomizeColors (some ip) draws = some ip' ∧
      (∀ n ∈ ip.sel, ∃ r g b : Nat, r < 256 ∧ g < 256 ∧ b < 256 ∧
        (∃ j : Nat, r = draws j ∧ g = draws (j + 1) ∧ b = draws (j + 2)) ∧
        ip'.wireColor n = RGB r g b ∧
        ip'.wireColor n = r + 256 * g + 65536 * b ∧
        ip'.wireColor n < 2 ^ 24) ∧
      (∀ n, n ∉ ip.sel → ip'.wireColor n = ip.wireColor n) ∧
      (ip.sel = [] → ip'.wireColor = ip.wireColor) := by
  refine ⟨_, rfl, ?_, ?_, ?_⟩
  · intro n hn
    obtain ⟨j, hj⟩ := randomizeLoop_mem draws n ip.sel 0 ip hn
    refine ⟨draws j, draws (j + 1), draws (j + 2), (draws j).isLt, (draws (j + 1)).isLt,
      (draws (j + 2)).isLt, ⟨j, rfl, rfl, rfl⟩, hj, ?_, ?_⟩
    · rw [hj]
      exact RGB_eq _ _ _ (draws j).isLt (draws (j + 1)).isLt (draws (j + 2)).isLt
    · rw [hj]
      exact RGB_lt _ _ _ (draws j).isLt (draws (j + 1)).isLt (draws (j + 2)).isLt
  · intro n hn
    exact randomizeLoop_not_mem draws n ip.sel 0 ip hn
  · intro he
    rw [he]
    rfl

/-- The C7 theorem on the two-box scene with node 1 selected and every draw equal to 255:
node 2, not selected, keeps its wire colour. -/
theorem C7_RandomizeColors_frame_witness :
    ∃ ip', RandomizeColors (some { twoBoxScene with sel := [1] }) (fun _ => 255) = some ip' ∧
      ip'.wireColor 2 = twoBoxScene.wireColor 2 :=
  match C7_RandomizeColors_frame { twoBoxScene with sel := [1] } (fun _ => 255) with
  | ⟨ip', h, _, hframe, _⟩ => ⟨ip', h, hframe 2 (by decide)⟩

/-! ## Theorems: aligning to the grid -/

theorem log2_eq (q : ℚ) (e : Int) (h1 : (2 : ℚ) ^ e ≤ q) (h2 : q < (2 : ℚ) ^ (e + 1)) :
    Int.log 2 q = e := by
  have hq : 0 < q := lt_of_lt_of_le (by positivity) h1
  have h3 : e ≤ Int.log 2 q :=
    (Int.zpow_le_iff_le_log (by norm_num) hq).mp (by exact_mod_cast h1)
  have h4 : Int.log 2 q < e + 1 :=
    (Int.lt_zpow_iff_log_lt (by norm_num) hq).mp (by exact_mod_cast h2)
  omega

theorem roundHalfEven_near (q : ℚ) (m : Int) (h1 : (m : ℚ) - 1 / 2 < q)
    (h2 : q < (m : ℚ) + 1 / 2) : roundHalfEven q = m := by
  unfold roundHalfEven
  by_cases hm : (m : ℚ) ≤ q
  · have hf : Int.floor q = m := by
      rw [Int.floor_eq_iff]; constructor <;> linarith
    rw [hf, if_pos (by linarith)]
  · have hf : Int.floor q = m - 1 := by
      rw [Int.floor_eq_iff]; push_cast; constructor <;> linarith
    rw [hf]
    push_cast
    rw [if_neg (by linarith), if_pos (by linarith)]
    omega

theorem roundHalfEven_tie_odd (k : Int) (hk : k % 2 = 1) :
    roundHalfEven ((k : ℚ) + 1 / 2) = k + 1 := by
  have hf : Int.floor ((k : ℚ) + 1 / 2) = k := by
    rw [Int.floor_eq_iff]; constructor <;> linarith
  unfold roundHalfEven
  rw [hf, if_neg (by linarith), if_neg (by linarith), if_neg (by omega)]

theorem round32_eval (q : ℚ) (e m : Int) (he : -126 ≤ e) (h1 : (2 : ℚ) ^ e ≤ |q|)
    (h2 : |q| < (2 : ℚ) ^ (e + 1)) (hm : roundHalfEven (q / (2 : ℚ) ^ (e - 23)) = m)
    (h5 : |(m : ℚ) * (2 : ℚ) ^ (e - 23)| < (2 : ℚ) ^ (128 : Int)) :
    round32 q = .fin ((m : ℚ) * (2 : ℚ) ^ (e - 23)) := by
  unfold round32
  simp only [log2_eq |q| e h1 h2, max_eq_left he, hm, if_pos h5]

theorem round32_near (q : ℚ) (e m : Int) (he : -126 ≤ e) (h1 : (2 : ℚ) ^ e ≤ |q|)
    (h2 : |q| < (2 : ℚ) ^ (e + 1)) (h3 : (m : ℚ) - 1 / 2 < q / (2 : ℚ) ^ (e - 23))
    (h4 : q / (2 : ℚ) ^ (e - 23) < (m : ℚ) + 1 / 2)
    (h5 : |(m : ℚ) * (2 : ℚ) ^ (e - 23)| < (2 : ℚ) ^ (128 : Int)) :
    round32 q = .fin ((m : ℚ) * (2 : ℚ) ^ (e - 23)) :=
  round32_eval q e m he h1 h2 (roundHalfEven_near _ m h3 h4) h5

theorem round32_zero : round32 0 = .fin 0 := by
  norm_num [round32, roundHalfEven]

theorem round32_half : round32 (1 / 2) = .fin (1 / 2) := by
  have h := round32_near (1 / 2) (-1) 8388608 (by norm_num) (by norm_num [abs_of_pos])
    (by norm_num [abs_of_pos]) (by norm_num) (by norm_num) (by norm_num [abs_of_pos])
  rw [h]; norm_num

theorem round32_three_eighths : round32 (3 / 8) = .fin (3 / 8) := by
  have h := round32_near (3 / 8) (-2) 12582912 (by norm_num) (by norm_num [abs_of_pos])
    (by norm_num [abs_of_pos]) (by norm_num) (by norm_num) (by norm_num [abs_of_pos])
  rw [h]; norm_num

theorem round32_seven_eighths : round32 (7 / 8) = .fin (7 / 8) := by
  have h := round32_near (7 / 8) (-1) 14680064 (by norm_num) (by norm_num [abs_of_pos])
    (by norm_num [abs_of_pos]) (by norm_num) (by norm_num) (by norm_num [abs_of_pos])
  rw [h]; norm_num

theorem round32_large_div_one : round32 (8388609 / 1) = .fin 8388609 := by
  have h := round32_near (8388609 / 1) 23 8388609 (by norm_num) (by norm_num [abs_of_pos])
    (by norm_num [abs_of_pos]) (by norm_num) (by norm_num) (by norm_num [abs_of_pos])
  rw [h]; norm_num

theorem roundHalfEven_large_tie :
    roundHalfEven ((8388609 + 1 / 2) / (2 : ℚ) ^ ((23 : Int) - 23)) = 8388610 := by
  have := roundHalfEven_tie_odd 8388609 (by norm_num)
  norm_num at this ⊢
  exact this

/-- The sum `8388609 + 0.5` is a tie between two binary32 values and rounds to the even
one. -/
theorem round32_large_plus_half : round32 (8388609 + 1 / 2) = .fin 8388610 := by
  have h := round32_eval (8388609 + 1 / 2) 23 8388610 (by norm_num)
    (by norm_num [abs_of_pos]) (by norm_num [abs_of_pos]) roundHalfEven_large_tie
    (by norm_num [abs_of_pos])
  rw [h]; norm_num

theorem round32_large_mul_one : round32 (((8388610 : Int) : ℚ) * 1) = .fin 8388610 := by
  have h := round32_near (((8388610 : Int) : ℚ) * 1) 23 8388610 (by norm_num)
    (by norm_num [abs_of_pos]) (by norm_num [abs_of_pos]) (by norm_num) (by norm_num)
    (by norm_num [abs_of_pos])
  rw [h]; norm_num

theorem floor_large : Int.floor (8388610 : ℚ) = 8388610 := by
  rw [Int.floor_eq_iff]; constructor <;> norm_num

/-- With grid spacing 1 the coordinate 8388609, already on the grid, is moved to 8388610. -/
theorem snappedF32_one_large : snappedF32 1 (.fin 8388609) = .fin 8388610 := by
  unfold snappedF32
  rw [F32.div, if_neg one_ne_zero, round32_large_div_one, F32.add, round32_large_plus_half,
    floorf, floor_large, F32.mul, round32_large_mul_one]

/-- Where the quotient, the sum and the product are binary32 values, `AlignToGrid` computes
the exact snapped coordinate. -/
theorem snappedF32_exact (g x : ℚ) (hg : 0 < g) (h1 : isBinary32 (x / g))
    (h2 : isBinary32 (x / g + 1 / 2)) (h3 : isBinary32 (snapped g x)) :
    snappedF32 g (.fin x) = .fin (snapped g x) := by
  unfold isBinary32 at h1 h2 h3
  unfold snapped at h3
  simp only [snappedF32, F32.div, if_neg (ne_of_gt hg), h1, F32.add, h2, floorf, F32.mul, h3,
    snapped]

/-! ### The loop of `AlignToGrid` -/

theorem alignLoop_step (t : Int) (g : ℚ) (node : Nat) (rest : List Nat) (ip : Interface) :
    alignLoop t g (node :: rest) ip =
      alignLoop t g rest (ip.SetNodeTM node t (snapTM g (ip.nodeTM node))) := rfl

theorem snapped_eight_three : snapped 8 3 = 0 := by
  have hf : Int.floor ((3 : ℚ) / 8 + 1 / 2) = 0 := by
    rw [Int.floor_eq_iff]; constructor <;> norm_num
  rw [snapped, hf]; norm_num

theorem isBinary32_three_eighths : isBinary32 (3 / 8) := round32_three_eighths

theorem isBinary32_three_eighths_plus_half : isBinary32 (3 / 8 + 1 / 2) := by
  have h78 : (3 / 8 + 1 / 2 : ℚ) = 7 / 8 := by norm_num
  rw [isBinary32, h78]
  exact round32_seven_eighths

theorem isBinary32_snapped_eight_three : isBinary32 (snapped 8 3) := by
  rw [isBinary32, snapped_eight_three]
  exact round32_zero

theorem snappedF32_eight_three : snappedF32 8 (.fin 3) = .fin 0 := by
  have h := snappedF32_exact 8 3 (by norm_num) isBinary32_three_eighths
    isBinary32_three_eighths_plus_half isBinary32_snapped_eight_three
  rw [h, snapped_eight_three]

/-- On a host that moves linked nodes along, `AlignToGrid` changes a node that is not selected:
in `linkedScene` only node 1 is selected and `SetNodeTM` is called on node 1 only, yet node 2,
linked to it, goes from translation `(3, 3, 3)` to `(0, 0, 0)`. -/
theorem AlignToGrid_linked_child_moves :
    ∃ ip', AlignToGrid (some linkedScene) = some ip' ∧
      2 ∉ linkedScene.sel ∧
      ip'.nodeTMCalls.map (fun c => c.1) = [1] ∧
      (linkedScene.nodeTM 2).row3 = ⟨.fin 3, .fin 3, .fin 3⟩ ∧
      (ip'.nodeTM 2).row3 = ⟨.fin 0, .fin 0, .fin 0⟩ := by
  refine ⟨_, rfl, by decide, rfl, rfl, ?_⟩
  have h : (alignLoop linkedScene.time linkedScene.gridSpacing linkedScene.sel
      linkedScene).nodeTM 2 = snapTM 8 (linkedScene.nodeTM 1) := by
    show (alignLoop 0 8 [1] linkedScene).nodeTM 2 = _
    rw [alignLoop_step]
    simp [alignLoop, Interface.SetNodeTM, linkedScene, linkedSetNodeTM]
  rw [h]
  simp [snapTM, linkedScene, identityTM, snappedF32_eight_three]

end MaxPlugins
